import Mathlib

/-!
Verification development for the `three-image-transition` gallery
(`vite.config.js` / main module).  The JavaScript source is shallowly
embedded: numeric computations are carried out over `ℚ` (the source uses
IEEE doubles; every constant appearing in the claims is an exact decimal),
`Math.random()` draws are passed in explicitly as rationals in `[0, 1)`,
and the stateful `ImageGallery` / scrubber code is modelled as explicit
state-passing functions.
-/

namespace ImageTransition

/-- 3-component vector, mirroring `THREE.Vector3` as used by the builder
(only exact rational coordinates arise in the embedded computations). -/
structure V3 where
  x : ℚ
  y : ℚ
  z : ℚ
deriving DecidableEq

/-- `THREE.MathUtils.mapLinear(x, a1, a2, b1, b2)`:
`b1 + (x - a1) * (b2 - b1) / (a2 - a1)`. -/
def mapLinear (x a1 a2 b1 b2 : ℚ) : ℚ :=
  b1 + (x - a1) * (b2 - b1) / (a2 - a1)

/-- `THREE.MathUtils.randFloat(lo, hi)` = `lo + Math.random() * (hi - lo)`,
with the `Math.random()` draw `u ∈ [0, 1)` made explicit. -/
def randFloat (lo hi u : ℚ) : ℚ :=
  lo + u * (hi - lo)

/-- `THREE.MathUtils.clamp(value, lo, hi)` = `max(lo, min(hi, value))`
(the GLSL `clamp` used in the vertex shader computes the same value). -/
def clampQ (value lo hi : ℚ) : ℚ :=
  max lo (min hi value)

/-! ### Animation-timing constants (Slide constructor, lines 389–395) -/

def minDuration : ℚ := 8/10
def maxDuration : ℚ := 12/10
def maxDelayX : ℚ := 9/10
def maxDelayY : ℚ := 125/1000
def stretch : ℚ := 11/100

/-- `totalDuration = maxDuration + maxDelayX + maxDelayY + stretch`
(line 395). -/
def totalDuration : ℚ := maxDuration + maxDelayX + maxDelayY + stretch

/-! ### Plane geometry

`new THREE.PlaneGeometry(width, height, gx, gy).toNonIndexed()`.
THREE.js lays the `(gx+1) × (gy+1)` vertex grid out as
`x = ix * (w/gx) - w/2`, `y = h/2 - iy * (h/gy)`, `z = 0`, and emits per
grid cell the two triangles `(a, b, d)` and `(b, c, d)` with
`a = (ix, iy)`, `b = (ix, iy+1)`, `c = (ix+1, iy+1)`, `d = (ix+1, iy)`;
`toNonIndexed` keeps that face order.  Face `i` therefore sits in cell
`i / 2` (row-major: `ix = (i/2) % gx`, `iy = (i/2) / gx`) and is the
first of the cell's two triangles iff `i` is even. -/

def planeVx (w : ℚ) (gx ix : ℕ) : ℚ := ix * (w / gx) - w / 2

def planeVy (h : ℚ) (gy iy : ℕ) : ℚ := h / 2 - iy * (h / gy)

/-- The three vertices of face `i` of the non-indexed plane. -/
def faceVerts (w h : ℚ) (gx gy : ℕ) (i : ℕ) : V3 × V3 × V3 :=
  let ix := (i / 2) % gx
  let iy := (i / 2) / gx
  let va : V3 := ⟨planeVx w gx ix, planeVy h gy iy, 0⟩
  let vb : V3 := ⟨planeVx w gx ix, planeVy h gy (iy + 1), 0⟩
  let vc : V3 := ⟨planeVx w gx (ix + 1), planeVy h gy (iy + 1), 0⟩
  let vd : V3 := ⟨planeVx w gx (ix + 1), planeVy h gy iy, 0⟩
  if i % 2 = 0 then (va, vb, vd) else (vb, vc, vd)

/-- Face centroid: `(v0 + v1 + v2) / 3` (lines 402–405). -/
def centroidOf (t : V3 × V3 × V3) : V3 :=
  ⟨(t.1.x + t.2.1.x + t.2.2.x) / 3,
   (t.1.y + t.2.1.y + t.2.2.y) / 3,
   (t.1.z + t.2.1.z + t.2.2.z) / 3⟩

/-! ### Per-face animation data (Slide constructor, lines 398–457) -/

/-- Slide animation phase (`'in'` / `'out'`). -/
inductive Phase
  | inP
  | outP
deriving DecidableEq

/-- `duration = THREE.MathUtils.randFloat(minDuration, maxDuration)`
(line 408), one draw `uDur` per face. -/
def faceDuration (uDur : ℚ) : ℚ :=
  randFloat minDuration maxDuration uDur

/-- `delayX = mapLinear(centroid.x, -width/2, width/2, 0, maxDelayX)`
(line 409). -/
def faceDelayX (w cx : ℚ) : ℚ :=
  mapLinear cx (-(w / 2)) (w / 2) 0 maxDelayX

/-- `delayY`: for phase `'in'`, `mapLinear(|centroid.y|, 0, h/2, 0, maxDelayY)`;
for phase `'out'`, the output range is reversed (lines 412–416). -/
def faceDelayY (ph : Phase) (h cy : ℚ) : ℚ :=
  match ph with
  | Phase.inP => mapLinear |cy| 0 (h / 2) 0 maxDelayY
  | Phase.outP => mapLinear |cy| 0 (h / 2) maxDelayY 0

/-- Per-vertex delay written into `aAnimation` (line 421):
`delayX + delayY + Math.random() * stretch * duration`.  The jitter draw
`u v` happens inside the `for (v = 0; v < 3; v++)` loop, so each of the
face's three vertices consumes its own `Math.random()` call. -/
def faceVertexDelay (w h : ℚ) (ph : Phase) (c : V3) (uDur : ℚ)
    (u : Fin 3 → ℚ) (v : Fin 3) : ℚ :=
  faceDelayX w c.x + faceDelayY ph h c.y + u v * stretch * faceDuration uDur

/-- Per-vertex duration written into `aAnimation` (line 422): the single
per-face `duration`, replicated across the three vertices. -/
def faceVertexDuration (uDur : ℚ) (_v : Fin 3) : ℚ :=
  faceDuration uDur

/-! ### Vertex-shader progress evaluation (lines 492–505)

```
float ease(float t, float b, float c, float d) {
  t /= d / 2.0;
  if (t < 1.0) return c / 2.0 * t * t * t + b;
  t -= 2.0;
  return c / 2.0 * (t * t * t + 2.0) + b;
}
float tTime = clamp(uTime - tDelay, 0.0, tDuration);
float tProgress = ease(tTime, 0.0, 1.0, tDuration);
```
-/

/-- The shader's `ease` (two-piece ease-in-out cubic in Penner form). -/
def easeShader (t b c d : ℚ) : ℚ :=
  let t1 := t / (d / 2)
  if t1 < 1 then c / 2 * (t1 * t1 * t1) + b
  else
    let t2 := t1 - 2
    c / 2 * (t2 * t2 * t2 + 2) + b

/-- `tProgress` as a function of the vertex attributes and the global
`uTime` uniform. -/
def vertexProgress (tDelay tDuration uTime : ℚ) : ℚ :=
  easeShader (clampQ (uTime - tDelay) 0 tDuration) 0 1 tDuration

/-! ### ImageGallery state machine (lines 166–365)

The gallery's mutable fields that the claims mention are carried in
`GState`; `Math.random`-free.  `next()` / `previous()` / `reset()` are
modelled as whole-invocation runs: the single-threaded cooperative model
(spec §5) lets a successful run be collapsed to its final state, and a
texture-load rejection aborts the async function at the `await`, leaving
the fields exactly as they were at that point.  Texture loading itself is
an external collaborator; its outcome is the boolean `loadOk` oracle.
Side channels not touched by any claim (auto-advance timers, the
background `preloadAround` cache fills issued after a completed
transition, console logging, the scene/GPU handles inside a slide) are
not modelled. -/

/-- The observable pieces of a `Slide` the gallery state machine
manipulates: its phase and its `time` scalar. -/
structure SlideS where
  phase : Phase
  time : ℚ
deriving DecidableEq

/-- Error on the direct navigation path: the texture loader rejected. -/
inductive LoadErr
  | textureLoadError
deriving DecidableEq

/-- Externally visible events of one gallery operation run.
`transitionStarted` marks the creation of the gsap timeline holding the
two `transition()` tweens (lines 308, 330–332); `slideDisposed` marks the
completion callback releasing the superseded slide's resources
(lines 311–315); `loadStarted` marks a direct-path texture load. -/
inductive GEvent
  | loadStarted (i : ℕ)
  | transitionStarted (tgt : ℕ)
  | slideDisposed
deriving DecidableEq

/-- `true` exactly on `transitionStarted` events. -/
def GEvent.isStart : GEvent → Bool
  | GEvent.transitionStarted _ => true
  | _ => false

/-- Gallery state (constructor, lines 167–179).  `textures` is the cache
indexed by image index (`true` = decoded texture present). -/
structure GState where
  currentIndex : ℕ
  numImages : ℕ
  textures : List Bool
  currentSlide : Option SlideS
  nextSlide : Option SlideS
  isTransitioning : Bool
deriving DecidableEq

/-- `transitionTo(targetIndex)` run to completion (lines 287–334): a new
`'in'` slide is created at `time = 0`, the current slide is flipped to
`'out'` with `time = 0`, one timeline containing both `transition()`
tweens is created, and its completion callback disposes the old slide,
promotes the new one (its tween has driven `time` to `totalDuration`),
sets `currentIndex`, and clears the in-flight flag. -/
def transitionToRun (tgt : ℕ) (s : GState) : GState × List GEvent :=
  ({ s with
      currentSlide := some { phase := Phase.inP, time := totalDuration },
      nextSlide := none,
      currentIndex := tgt,
      isTransitioning := false },
   GEvent.transitionStarted tgt ::
     (if s.currentSlide.isSome then [GEvent.slideDisposed] else []))

/-- One invocation of `async next()` (lines 239–261), run as far as it
gets: dropped immediately when already transitioning or fewer than two
images; otherwise the flag is raised, the wrapped target index computed,
the target texture awaited when uncached (`loadOk` = the loader's
outcome; a rejection propagates out of the async function with the state
as mutated so far), and the transition is run to completion. -/
def nextRun (loadOk : Bool) (s : GState) : GState × List GEvent × Option LoadErr :=
  if s.isTransitioning || s.numImages < 2 then (s, [], none)
  else
    let s1 := { s with isTransitioning := true }
    let tgt := (s.currentIndex + 1) % s.numImages
    if s1.textures.getD tgt false then
      let r := transitionToRun tgt s1
      (r.1, r.2, none)
    else if loadOk then
      let s2 := { s1 with textures := s1.textures.set tgt true }
      let r := transitionToRun tgt s2
      (r.1, GEvent.loadStarted tgt :: r.2, none)
    else
      (s1, [GEvent.loadStarted tgt], some LoadErr.textureLoadError)

/-- One invocation of `async previous()` (lines 263–285): identical to
`next()` except for the wrapped target `(currentIndex - 1 + N) % N`. -/
def prevRun (loadOk : Bool) (s : GState) : GState × List GEvent × Option LoadErr :=
  if s.isTransitioning || s.numImages < 2 then (s, [], none)
  else
    let s1 := { s with isTransitioning := true }
    let tgt := (s.currentIndex + s.numImages - 1) % s.numImages
    if s1.textures.getD tgt false then
      let r := transitionToRun tgt s1
      (r.1, r.2, none)
    else if loadOk then
      let s2 := { s1 with textures := s1.textures.set tgt true }
      let r := transitionToRun tgt s2
      (r.1, GEvent.loadStarted tgt :: r.2, none)
    else
      (s1, [GEvent.loadStarted tgt], some LoadErr.textureLoadError)

/-- `reset()` (lines 358–365): when not already at index 0, rewrites
`currentIndex` to the last index and invokes `next()`. -/
def resetRun (loadOk : Bool) (s : GState) : GState × List GEvent × Option LoadErr :=
  if s.currentIndex ≠ 0 then
    nextRun loadOk { s with currentIndex := s.numImages - 1 }
  else (s, [], none)

/-! ### createTweenScrubber (lines 659–791)

The scrubber closure state (`_cx`, `_startX`, `mouseDown`,
`transitionInitiated`, `transitionDirection`) together with the pieces of
the gallery it reads (`timeline`, `isTransitioning`, image count) form
`SWorld`.  A gsap timeline handle is reduced to its `paused` flag and its
`progress() ∈ [0,1]` scalar.  The `galleryInstance.next()/previous()`
call made on the initiation frame is non-blocking; its synchronous prefix
(flag raised, timeline created — the target texture is assumed cached by
the preloader, so no `await` intervenes) runs inside `seek`, while the
`.then` pause-callback it registers runs only when the returned promise
resolves, i.e. when the transition's completion callback fires
(`completeTransitionEvent`). -/

/-- Direction of a drag-initiated transition (`'next'` / `'previous'`). -/
inductive Dir
  | nextD
  | prevD
deriving DecidableEq

/-- A gsap timeline handle as the scrubber sees it. -/
structure TL where
  paused : Bool
  progress : ℚ
deriving DecidableEq

/-- Scrubber closure state plus the gallery fields it touches.
`thenPending` records that a `next()/previous()` promise has a pause
callback waiting for resolution. -/
structure SWorld where
  mouseDown : Bool
  transitionInitiated : Bool
  transitionDirection : Option Dir
  cx : ℚ
  startX : ℚ
  timeline : Option TL
  isTransitioning : Bool
  numImages : ℕ
  thenPending : Bool
deriving DecidableEq

/-- `!galleryInstance.timeline || galleryInstance.timeline.progress() === 1`
(line 680). -/
def needsNewTimeline (w : SWorld) : Bool :=
  match w.timeline with
  | none => true
  | some tl => decide (tl.progress = 1)

/-- The `.then` callback registered on the drag-initiated
`next()/previous()` promise (lines 695–698 / 702–705):
`if (galleryInstance.timeline && mouseDown) galleryInstance.timeline.pause()`. -/
def runThenCallback (w : SWorld) : SWorld :=
  match w.timeline with
  | some tl =>
      if w.mouseDown then { w with timeline := some { tl with paused := true } }
      else w
  | none => w

/-- Synchronous prefix of `gallery.next()` / `gallery.previous()` as
invoked from the initiation frame: either the call is dropped by the
guard (its promise then resolves at once, running the pause callback), or
the in-flight flag is raised and the playing timeline is created
synchronously (target texture cached), leaving the pause callback pending
until the transition completes. -/
def startTransitionSync (w : SWorld) : SWorld :=
  if w.isTransitioning || w.numImages < 2 then runThenCallback w
  else
    { w with
        isTransitioning := true,
        timeline := some { paused := false, progress := 0 },
        thenPending := true }

/-- The scrub half of `seek` (lines 713–721): when a timeline exists and
the gesture is bound to a transition, incremental `dx` (sign-inverted for
`'previous'`) times `seekSpeed` is added to the progress, clamped to
`[0,1]`, and written back. -/
def scrubActive (speed dx : ℚ) (w : SWorld) : SWorld :=
  match w.timeline with
  | some tl =>
      if w.transitionInitiated then
        let effectiveDx := if w.transitionDirection = some Dir.prevD then -dx else dx
        { w with
            timeline :=
              some { tl with
                       progress := clampQ (tl.progress + effectiveDx * speed) 0 1 } }
      else w
  | none => w

/-- `seek(dx, totalDx)` (lines 678–722).  On the initiation frame (fresh
or finished timeline, gesture not yet bound, gallery idle, cumulative
`|totalDx|` above the 30-unit threshold) the direction is picked by the
sign of `totalDx`, the matching gallery transition is started and the
frame ends without scrubbing; otherwise control falls through to the
scrub half. -/
def seek (speed dx totalDx : ℚ) (w : SWorld) : SWorld :=
  if needsNewTimeline w ∧ ¬w.transitionInitiated ∧ ¬w.isTransitioning
      ∧ 30 < |totalDx| then
    startTransitionSync
      { w with
          transitionInitiated := true,
          transitionDirection := some (if 0 < totalDx then Dir.nextD else Dir.prevD) }
  else
    scrubActive speed dx w

/-- `mousedown` handler (lines 727–741): resets the gesture state and
records the press position; when a timeline with `progress < 1` already
exists it is paused and the gesture is marked as already bound to a
transition, its direction left unknown. -/
def mousedownEvent (x : ℚ) (w : SWorld) : SWorld :=
  let w1 :=
    { w with
        mouseDown := true,
        transitionInitiated := false,
        transitionDirection := none,
        cx := x,
        startX := x }
  match w1.timeline with
  | some tl =>
      if tl.progress < 1 then
        { w1 with
            timeline := some { tl with paused := true },
            transitionInitiated := true }
      else w1
  | none => w1

/-- `mousemove` handler (lines 751–759): while the button is held,
computes incremental and cumulative displacement, advances `_cx`, and
calls `seek`. -/
def mousemoveEvent (speed x : ℚ) (w : SWorld) : SWorld :=
  if w.mouseDown then
    seek speed (x - w.cx) (x - w.startX) { w with cx := x }
  else w

/-- `mouseup` handler (lines 743–749): clears the gesture state and
resumes the timeline if one exists. -/
def mouseupEvent (w : SWorld) : SWorld :=
  let w1 :=
    { w with
        mouseDown := false,
        transitionInitiated := false,
        transitionDirection := none }
  match w1.timeline with
  | some tl => { w1 with timeline := some { tl with paused := false } }
  | none => w1

/-- The transition completing (gsap `onComplete`, lines 309–325): the
timeline's progress reaches 1, the gallery clears the in-flight flag, and
the `next()/previous()` promise resolves, running any pending pause
callback. -/
def completeTransitionEvent (w : SWorld) : SWorld :=
  let tlDone : Option TL :=
    match w.timeline with
    | some tl => some { tl with progress := 1 }
    | none => none
  let w1 := { w with isTransitioning := false, timeline := tlDone }
  if w1.thenPending then runThenCallback { w1 with thenPending := false }
  else w1

/-- A sequence of `mousemove` events, pointer positions in order. -/
def movesFold (speed : ℚ) (xs : List ℚ) (w : SWorld) : SWorld :=
  xs.foldl (fun w x => mousemoveEvent speed x w) w

/-! ## Claims -/

/-- Claim C3, counterexample: `totalDuration` is not `2.135` (it is
`1.2 + 0.9 + 0.125 + 0.11 = 2.335`). -/
theorem totalDuration_ne_spec_value : totalDuration ≠ 2135 / 1000 := by
  norm_num [totalDuration, maxDuration, maxDelayX, maxDelayY, stretch]

/-- Claim C3 (amended): `totalDuration` equals
`maxDuration + maxDelayX + maxDelayY + stretch`, a constant independent of
any per-face randomness, and with the default constants it equals exactly
`2.335` (not `2.135`). -/
theorem totalDuration_value :
    totalDuration = maxDuration + maxDelayX + maxDelayY + stretch ∧
    totalDuration = 2335 / 1000 := by
  refine ⟨rfl, ?_⟩
  norm_num [totalDuration, maxDuration, maxDelayX, maxDelayY, stretch]

/-- Claim C1: whenever `isTransitioning` is set, or fewer than two images
exist, `next()` and `previous()` return with the whole gallery state
(index, slides, cache, flag) unchanged, producing no event (no transition,
no timeline, no load) and no error — the call is dropped, not queued. -/
theorem navigation_dropped_when_busy (loadOk : Bool) (s : GState)
    (h : s.isTransitioning = true ∨ s.numImages < 2) :
    nextRun loadOk s = (s, [], none) ∧ prevRun loadOk s = (s, [], none) := by
  have hcond : (s.isTransitioning || decide (s.numImages < 2)) = true := by
    rcases h with h | h
    · simp [h]
    · simp [h]
  constructor <;> · simp only [nextRun, prevRun]; rw [if_pos]; exact hcond

/-- Concrete instance of `navigation_dropped_when_busy`: a mid-transition
state with three images. -/
def busyState : GState :=
  { currentIndex := 0
    numImages := 3
    textures := [true, true, true]
    currentSlide := some { phase := Phase.outP, time := 0 }
    nextSlide := some { phase := Phase.inP, time := 0 }
    isTransitioning := true }

/-- Witness for claim C1 at `busyState`. -/
theorem navigation_dropped_when_busy_witness :
    nextRun true busyState = (busyState, [], none) ∧
    prevRun true busyState = (busyState, [], none) :=
  navigation_dropped_when_busy true busyState (Or.inl rfl)

/-- An idle two-image gallery whose second texture is not cached: the
state in which a direct-navigation load failure locks the gallery. -/
def lockState : GState :=
  { currentIndex := 0
    numImages := 2
    textures := [true, false]
    currentSlide := some { phase := Phase.inP, time := totalDuration }
    nextSlide := none
    isTransitioning := false }

/-- Claim C4: evaluation at the failing input.  When the texture load on
the direct path of `next()` rejects, the error does propagate to the
caller, but `isTransitioning` stays `true` (there is no `try/finally`
around the `await`), so every later `next()`/`previous()` call is dropped
— the gallery is permanently locked, contrary to the claim that the flag
is cleared. -/
theorem load_failure_locks_gallery :
    (nextRun false lockState).2.2 = some LoadErr.textureLoadError ∧
    (nextRun false lockState).1.isTransitioning = true ∧
    nextRun true (nextRun false lockState).1 =
      ((nextRun false lockState).1, [], none) ∧
    prevRun true (nextRun false lockState).1 =
      ((nextRun false lockState).1, [], none) :=
  ⟨rfl, rfl, rfl, rfl⟩

/-- A gallery observed mid-transition at index 1 of 3, all textures
cached. -/
def midFlightState : GState :=
  { currentIndex := 1
    numImages := 3
    textures := [true, true, true]
    currentSlide := some { phase := Phase.outP, time := 0 }
    nextSlide := some { phase := Phase.inP, time := 0 }
    isTransitioning := true }

/-- Claim C9, counterexample: `reset()` invoked at index `1 ≠ 0` while a
transition is in flight rewrites `currentIndex` to the last index `2`,
after which the inner `next()` is dropped by the in-flight guard: no
transition is performed, the call does not end at index 0, and the
logical index has jumped instantaneously. -/
theorem reset_midflight_is_instant_jump :
    (resetRun true midFlightState).1.currentIndex = 2 ∧
    (resetRun true midFlightState).2.1 = [] ∧
    (resetRun true midFlightState).1.currentIndex ≠ 0 := by
  decide

/-- An idle scrubber world: pointer up at `x = 0`, no gesture bound, no
timeline, gallery idle with three images (textures preloaded). -/
def idleWorld : SWorld :=
  { mouseDown := false
    transitionInitiated := false
    transitionDirection := none
    cx := 0
    startX := 0
    timeline := none
    isTransitioning := false
    numImages := 3
    thenPending := false }

/-- Press at `x = 0`, then a single move to `x = 40` (cumulative `+40`,
above the 30-unit threshold). -/
def dragTo40 : SWorld := mousemoveEvent (1 / 1000) 40 (mousedownEvent 0 idleWorld)

/-- Claim C7: evaluation at the failing input.  The drag does resolve the
direction to `next` and starts the transition, but at the moment the
playback handle becomes available — pointer still held — the handle is
*not* paused; the registered pause callback only runs when the `next()`
promise resolves, i.e. when the transition has already completed
(`progress = 1`). -/
theorem drag_initiation_pause_deferred :
    dragTo40.transitionDirection = some Dir.nextD ∧
    dragTo40.mouseDown = true ∧
    dragTo40.timeline = some { paused := false, progress := 0 } ∧
    (completeTransitionEvent dragTo40).timeline =
      some { paused := true, progress := 1 } := by
  norm_num [dragTo40, idleWorld, mousedownEvent, mousemoveEvent, seek,
    needsNewTimeline, startTransitionSync, scrubActive,
    completeTransitionEvent, runThenCallback]

/-- `clampQ x 0 1` lies in `[0, 1]`. -/
theorem clampQ_zero_one_mem (x : ℚ) : 0 ≤ clampQ x 0 1 ∧ clampQ x 0 1 ≤ 1 := by
  unfold clampQ
  constructor
  · exact le_max_left 0 (min 1 x)
  · exact max_le (by norm_num) (min_le_left 1 x)

/-- Claim C8: a `seek` call on a world whose gesture is bound to a
transition (`transitionInitiated`) with an existing handle rewrites the
handle's progress to
`clamp(progress + effectiveDx * 0.001, 0, 1)`, where `effectiveDx = -dx`
exactly when the decided direction is `previous`; the written value lies
in `[0, 1]` whatever the drag input. -/
theorem scrub_progress_clamped (dx totalDx : ℚ) (w : SWorld) (tl : TL)
    (htl : w.timeline = some tl) (hinit : w.transitionInitiated = true) :
    (seek (1 / 1000) dx totalDx w).timeline =
      some { tl with
               progress :=
                 clampQ (tl.progress +
                   (if w.transitionDirection = some Dir.prevD then -dx else dx)
                     * (1 / 1000)) 0 1 } ∧
    0 ≤ clampQ (tl.progress +
          (if w.transitionDirection = some Dir.prevD then -dx else dx)
            * (1 / 1000)) 0 1 ∧
    clampQ (tl.progress +
        (if w.transitionDirection = some Dir.prevD then -dx else dx)
          * (1 / 1000)) 0 1 ≤ 1 := by
  refine ⟨?_, clampQ_zero_one_mem _⟩
  simp only [seek, hinit]
  rw [if_neg (by simp)]
  simp [scrubActive, htl, hinit]

/-- A world mid-gesture, bound to a `previous`-directed transition. -/
def prevScrubWorld : SWorld :=
  { mouseDown := true
    transitionInitiated := true
    transitionDirection := some Dir.prevD
    cx := -10
    startX := 0
    timeline := some { paused := true, progress := 1 / 2 }
    isTransitioning := true
    numImages := 3
    thenPending := true }

/-- Witness for claim C8 at `prevScrubWorld` with `dx = -20`. -/
theorem scrub_progress_clamped_witness :
    (seek (1 / 1000) (-20) (-30) prevScrubWorld).timeline =
      some { paused := true,
             progress :=
               clampQ (1 / 2 +
                 (if prevScrubWorld.transitionDirection = some Dir.prevD
                   then -(-20) else -20) * (1 / 1000)) 0 1 } ∧
    0 ≤ clampQ (1 / 2 +
          (if prevScrubWorld.transitionDirection = some Dir.prevD
            then -(-20) else -20) * (1 / 1000)) 0 1 ∧
    clampQ (1 / 2 +
        (if prevScrubWorld.transitionDirection = some Dir.prevD
          then -(-20) else -20) * (1 / 1000)) 0 1 ≤ 1 :=
  scrub_progress_clamped (-20) (-30) prevScrubWorld
    { paused := true, progress := 1 / 2 } rfl rfl

/-- A gesture that `mousedown` bound to an already-existing transition:
pointer held, gesture marked initiated, direction never chosen, a handle
present. -/
def boundGesture (w : SWorld) : Prop :=
  w.mouseDown = true ∧ w.transitionInitiated = true ∧
    w.transitionDirection = none ∧ w.timeline.isSome = true

/-- A `mousemove` during a bound gesture scrubs with the raw incremental
`dx` (direction unresolved, so no sign inversion) and preserves the
bound-gesture shape. -/
theorem boundGesture_move (speed y : ℚ) (w : SWorld) (h : boundGesture w) :
    boundGesture (mousemoveEvent speed y w) ∧
    ∀ tl : TL, w.timeline = some tl →
      (mousemoveEvent speed y w).timeline =
        some { tl with progress := clampQ (tl.progress + (y - w.cx) * speed) 0 1 } := by
  obtain ⟨hmd, hinit, hdir, htl⟩ := h
  obtain ⟨tl, htl2⟩ := Option.isSome_iff_exists.mp htl
  have hstep : mousemoveEvent speed y w =
      { w with cx := y,
               timeline :=
                 some { tl with
                          progress := clampQ (tl.progress + (y - w.cx) * speed) 0 1 } } := by
    simp only [mousemoveEvent, hmd, if_pos]
    simp only [seek, hinit]
    rw [if_neg (by simp)]
    simp [scrubActive, htl2, hinit, hdir]
  refine ⟨?_, ?_⟩
  · rw [hstep]
    exact ⟨hmd, hinit, hdir, rfl⟩
  · intro tl1 htl1
    rw [htl1] at htl2
    cases htl2
    rw [hstep]

/-- Every tail of moves keeps a bound gesture bound and directionless. -/
theorem boundGesture_movesFold (speed : ℚ) (xs : List ℚ) (w : SWorld)
    (h : boundGesture w) : boundGesture (movesFold speed xs w) := by
  induction xs generalizing w with
  | nil => exact h
  | cons x xs ih =>
      exact ih (mousemoveEvent speed x w) (boundGesture_move speed x w h).1

/-- Claim C10: pressing while a handle with `progress < 1` exists marks
the gesture as bound to that transition; the direction is then never
resolved for the rest of the gesture (it stays `none` after any sequence
of moves), and every move writes
`clamp(progress + dx * seekSpeed, 0, 1)` with the *uninverted*
incremental `dx` — regardless of which navigation call produced the
running transition, so leftward drag always moves progress down. -/
theorem bound_gesture_never_inverts (speed x : ℚ) (w : SWorld) (tl : TL)
    (htl : w.timeline = some tl) (hp : tl.progress < 1) :
    (mousedownEvent x w).transitionInitiated = true ∧
    ∀ xs : List ℚ,
      (movesFold speed xs (mousedownEvent x w)).transitionDirection = none ∧
      ∀ y : ℚ, ∀ tl2 : TL,
        (movesFold speed xs (mousedownEvent x w)).timeline = some tl2 →
        (mousemoveEvent speed y (movesFold speed xs (mousedownEvent x w))).timeline =
          some { tl2 with
                   progress :=
                     clampQ (tl2.progress +
                       (y - (movesFold speed xs (mousedownEvent x w)).cx) * speed) 0 1 } := by
  have hdown : boundGesture (mousedownEvent x w) := by
    simp only [mousedownEvent, htl]
    rw [if_pos hp]
    exact ⟨rfl, rfl, rfl, rfl⟩
  refine ⟨hdown.2.1, ?_⟩
  intro xs
  have hfold := boundGesture_movesFold speed xs _ hdown
  exact ⟨hfold.2.2.1, fun y tl2 htl2 =>
    (boundGesture_move speed y _ hfold).2 tl2 htl2⟩

/-- A paused half-way transition handle produced by `previous()` just
before the pointer goes down. -/
def halfwayWorld : SWorld :=
  { mouseDown := false
    transitionInitiated := false
    transitionDirection := none
    cx := 5
    startX := 5
    timeline := some { paused := false, progress := 1 / 2 }
    isTransitioning := true
    numImages := 3
    thenPending := true }

/-- Witness for claim C10 at `halfwayWorld`: press at `x = 0`, moves to
`x = -50` then `x = -90`; the direction is still unresolved. -/
theorem bound_gesture_never_inverts_witness :
    (movesFold (1 / 1000) [-50, -90] (mousedownEvent 0 halfwayWorld)).transitionDirection
      = none :=
  ((bound_gesture_never_inverts (1 / 1000) 0 halfwayWorld
      { paused := false, progress := 1 / 2 } rfl (by norm_num)).2 [-50, -90]).1

/-- Cubing is monotone on `ℚ`. -/
theorem cube_le_cube {a b : ℚ} (h : a ≤ b) : a * a * a ≤ b * b * b := by
  nlinarith [sq_nonneg (a + b), sq_nonneg (a - b), sq_nonneg a, sq_nonneg b]

/-- The shader ease at the left endpoint of the clamped interval. -/
theorem easeShader_zero (d : ℚ) : easeShader 0 0 1 d = 0 := by
  norm_num [easeShader]

/-- The shader ease at the right endpoint of the clamped interval. -/
theorem easeShader_at_d (d : ℚ) (hd : 0 < d) : easeShader d 0 1 d = 1 := by
  have h2 : d / (d / 2) = 2 := by
    rw [div_div_eq_mul_div, mul_comm, mul_div_assoc, div_self hd.ne']
    norm_num
  simp only [easeShader, h2]
  norm_num

/-- The shader ease is monotone non-decreasing (for positive duration). -/
theorem easeShader_mono (d : ℚ) (hd : 0 < d) {a b : ℚ} (hab : a ≤ b) :
    easeShader a 0 1 d ≤ easeShader b 0 1 d := by
  have hd2 : (0 : ℚ) < d / 2 := by linarith
  have hs : a / (d / 2) ≤ b / (d / 2) := by gcongr
  simp only [easeShader]
  by_cases ha : a / (d / 2) < 1 <;> by_cases hb : b / (d / 2) < 1
  · rw [if_pos ha, if_pos hb]
    have := cube_le_cube hs
    linarith
  · rw [if_pos ha, if_neg hb]
    push_neg at hb
    have h1 : a / (d / 2) * (a / (d / 2)) * (a / (d / 2)) ≤ 1 * 1 * 1 :=
      cube_le_cube ha.le
    have h2 : (-1 : ℚ) * -1 * -1 ≤
        (b / (d / 2) - 2) * (b / (d / 2) - 2) * (b / (d / 2) - 2) :=
      cube_le_cube (by linarith)
    linarith
  · push_neg at ha
    exact absurd (lt_of_le_of_lt hs hb) (by linarith)
  · rw [if_neg ha, if_neg hb]
    have := cube_le_cube (sub_le_sub_right hs 2)
    linarith

/-- Claim C6: for a vertex with attributes `(delay, duration)`
(`duration > 0`) the shader progress
`ease(clamp(time - delay, 0, duration), 0, 1, duration)` is `0` whenever
`time ≤ delay`, exactly `1` whenever `time ≥ delay + duration`, and
monotone non-decreasing in `time`. -/
theorem vertex_progress_contract (tDelay tDuration : ℚ) (hd : 0 < tDuration) :
    (∀ uTime, uTime ≤ tDelay → vertexProgress tDelay tDuration uTime = 0) ∧
    (∀ uTime, tDelay + tDuration ≤ uTime → vertexProgress tDelay tDuration uTime = 1) ∧
    (∀ t1 t2, t1 ≤ t2 →
      vertexProgress tDelay tDuration t1 ≤ vertexProgress tDelay tDuration t2) := by
  refine ⟨?_, ?_, ?_⟩
  · intro uTime h
    have hc : clampQ (uTime - tDelay) 0 tDuration = 0 := by
      unfold clampQ
      rw [min_eq_right (by linarith), max_eq_left (by linarith)]
    rw [vertexProgress, hc, easeShader_zero]
  · intro uTime h
    have hc : clampQ (uTime - tDelay) 0 tDuration = tDuration := by
      unfold clampQ
      rw [min_eq_left (by linarith), max_eq_right hd.le]
    rw [vertexProgress, hc, easeShader_at_d tDuration hd]
  · intro t1 t2 h
    unfold vertexProgress
    apply easeShader_mono tDuration hd
    unfold clampQ
    exact max_le_max le_rfl (min_le_min le_rfl (by linarith))

/-- Witness for claim C6 at `delay = 1`, `duration = 2`. -/
theorem vertex_progress_contract_witness :
    vertexProgress 1 2 1 = 0 ∧ vertexProgress 1 2 3 = 1 ∧
    vertexProgress 1 2 (3 / 2) ≤ vertexProgress 1 2 2 :=
  ⟨(vertex_progress_contract 1 2 (by norm_num)).1 1 le_rfl,
   (vertex_progress_contract 1 2 (by norm_num)).2.1 3 (by norm_num),
   (vertex_progress_contract 1 2 (by norm_num)).2.2 (3 / 2) 2 (by norm_num)⟩

/-- `mapLinear` stays inside an increasing output range. -/
theorem mapLinear_mem (x a1 a2 b1 b2 : ℚ) (ha : a1 < a2) (hx1 : a1 ≤ x)
    (hx2 : x ≤ a2) (hb : b1 ≤ b2) :
    b1 ≤ mapLinear x a1 a2 b1 b2 ∧ mapLinear x a1 a2 b1 b2 ≤ b2 := by
  unfold mapLinear
  have hd : 0 < a2 - a1 := by linarith
  constructor
  · have h0 : 0 ≤ (x - a1) * (b2 - b1) / (a2 - a1) :=
      div_nonneg (mul_nonneg (by linarith) (by linarith)) hd.le
    linarith
  · have h1 : (x - a1) * (b2 - b1) / (a2 - a1) ≤ b2 - b1 := by
      rw [div_le_iff₀ hd]
      nlinarith
    linarith

/-- `mapLinear` stays inside a decreasing output range. -/
theorem mapLinear_mem_rev (x a1 a2 b1 b2 : ℚ) (ha : a1 < a2) (hx1 : a1 ≤ x)
    (hx2 : x ≤ a2) (hb : b2 ≤ b1) :
    b2 ≤ mapLinear x a1 a2 b1 b2 ∧ mapLinear x a1 a2 b1 b2 ≤ b1 := by
  unfold mapLinear
  have hd : 0 < a2 - a1 := by linarith
  constructor
  · have h1 : b2 - b1 ≤ (x - a1) * (b2 - b1) / (a2 - a1) := by
      rw [le_div_iff₀ hd]
      nlinarith
    linarith
  · have h0 : (x - a1) * (b2 - b1) / (a2 - a1) ≤ 0 :=
      div_nonpos_of_nonpos_of_nonneg
        (mul_nonpos_of_nonneg_of_nonpos (by linarith) (by linarith)) hd.le
    linarith

/-- Grid vertex x-coordinates of the plane lie in `[-w/2, w/2]`. -/
theorem planeVx_mem (w : ℚ) (gx j : ℕ) (hw : 0 < w) (hgx : 0 < gx)
    (hj : j ≤ gx) : -(w / 2) ≤ planeVx w gx j ∧ planeVx w gx j ≤ w / 2 := by
  have hgxQ : (0 : ℚ) < gx := by exact_mod_cast hgx
  have hjQ : (j : ℚ) ≤ gx := by exact_mod_cast hj
  have h0 : (0 : ℚ) ≤ (j : ℚ) * (w / gx) := by positivity
  have h1 : (j : ℚ) * (w / gx) ≤ gx * (w / gx) :=
    mul_le_mul_of_nonneg_right hjQ (by positivity)
  have h2 : (gx : ℚ) * (w / gx) = w := by field_simp
  unfold planeVx
  constructor <;> linarith

/-- Grid vertex y-coordinates of the plane lie in `[-h/2, h/2]`. -/
theorem planeVy_mem (h : ℚ) (gy j : ℕ) (hh : 0 < h) (hgy : 0 < gy)
    (hj : j ≤ gy) : -(h / 2) ≤ planeVy h gy j ∧ planeVy h gy j ≤ h / 2 := by
  have hgyQ : (0 : ℚ) < gy := by exact_mod_cast hgy
  have hjQ : (j : ℚ) ≤ gy := by exact_mod_cast hj
  have h0 : (0 : ℚ) ≤ (j : ℚ) * (h / gy) := by positivity
  have h1 : (j : ℚ) * (h / gy) ≤ gy * (h / gy) :=
    mul_le_mul_of_nonneg_right hjQ (by positivity)
  have h2 : (gy : ℚ) * (h / gy) = h := by field_simp
  unfold planeVy
  constructor <;> linarith

/-- The mean of three values in an interval stays in the interval. -/
theorem centroid_coord_mem {a b c lo hi : ℚ} (ha : lo ≤ a ∧ a ≤ hi)
    (hb : lo ≤ b ∧ b ≤ hi) (hc : lo ≤ c ∧ c ≤ hi) :
    lo ≤ (a + b + c) / 3 ∧ (a + b + c) / 3 ≤ hi := by
  obtain ⟨ha1, ha2⟩ := ha
  obtain ⟨hb1, hb2⟩ := hb
  obtain ⟨hc1, hc2⟩ := hc
  constructor <;> linarith

/-- Every face centroid of the subdivided plane lies inside the plane's
bounding rectangle. -/
theorem faceCentroid_mem (w h : ℚ) (gx gy i : ℕ) (hw : 0 < w) (hh : 0 < h)
    (hgx : 0 < gx) (hgy : 0 < gy) (hi : i < 2 * gx * gy) :
    (-(w / 2) ≤ (centroidOf (faceVerts w h gx gy i)).x ∧
      (centroidOf (faceVerts w h gx gy i)).x ≤ w / 2) ∧
    (-(h / 2) ≤ (centroidOf (faceVerts w h gx gy i)).y ∧
      (centroidOf (faceVerts w h gx gy i)).y ≤ h / 2) := by
  have hcell : i / 2 < gx * gy := by
    rw [Nat.div_lt_iff_lt_mul (by norm_num)]
    calc i < 2 * gx * gy := hi
    _ = gx * gy * 2 := by ring
  have hix : (i / 2) % gx < gx := Nat.mod_lt _ hgx
  have hiy : (i / 2) / gx < gy := by
    rw [Nat.div_lt_iff_lt_mul hgx]
    calc i / 2 < gx * gy := hcell
    _ = gy * gx := mul_comm gx gy
  have hx0 := planeVx_mem w gx ((i / 2) % gx) hw hgx hix.le
  have hx1 := planeVx_mem w gx ((i / 2) % gx + 1) hw hgx hix
  have hy0 := planeVy_mem h gy ((i / 2) / gx) hh hgy hiy.le
  have hy1 := planeVy_mem h gy ((i / 2) / gx + 1) hh hgy hiy
  by_cases hpar : i % 2 = 0 <;>
    · simp only [faceVerts, centroidOf, hpar, if_true, if_false,
        reduceIte]
      exact ⟨centroid_coord_mem (by assumption) (by assumption) (by assumption),
             centroid_coord_mem (by assumption) (by assumption) (by assumption)⟩

/-- `delayX` of a face centroid inside the plane lies in `[0, maxDelayX]`. -/
theorem faceDelayX_mem (w cx : ℚ) (hw : 0 < w) (h1 : -(w / 2) ≤ cx)
    (h2 : cx ≤ w / 2) : 0 ≤ faceDelayX w cx ∧ faceDelayX w cx ≤ maxDelayX := by
  unfold faceDelayX
  exact mapLinear_mem cx (-(w / 2)) (w / 2) 0 maxDelayX (by linarith) h1 h2
    (by norm_num [maxDelayX])

/-- `delayY` of a face centroid inside the plane lies in `[0, maxDelayY]`,
for either phase. -/
theorem faceDelayY_mem (ph : Phase) (h cy : ℚ) (hh : 0 < h)
    (h1 : -(h / 2) ≤ cy) (h2 : cy ≤ h / 2) :
    0 ≤ faceDelayY ph h cy ∧ faceDelayY ph h cy ≤ maxDelayY := by
  have habs1 : 0 ≤ |cy| := abs_nonneg cy
  have habs2 : |cy| ≤ h / 2 := abs_le.mpr ⟨h1, h2⟩
  cases ph with
  | inP =>
      exact mapLinear_mem |cy| 0 (h / 2) 0 maxDelayY (by linarith) habs1 habs2
        (by norm_num [maxDelayY])
  | outP =>
      have hm := mapLinear_mem_rev |cy| 0 (h / 2) maxDelayY 0 (by linarith)
        habs1 habs2 (by norm_num [maxDelayY])
      exact ⟨hm.1, hm.2⟩

/-- `duration` drawn from `[minDuration, maxDuration)` for a random draw
in `[0, 1)`. -/
theorem faceDuration_mem (uDur : ℚ) (h0 : 0 ≤ uDur) (h1 : uDur < 1) :
    minDuration ≤ faceDuration uDur ∧ faceDuration uDur < maxDuration := by
  unfold faceDuration randFloat minDuration maxDuration
  constructor <;> nlinarith

/-- Claim C2 (amended): for every face of the subdivided plane and every
outcome of the random draws, each vertex of the face has `delay ≥ 0` and
`duration > 0`, and
`delay + duration < maxDelayX + maxDelayY + (1 + stretch) * maxDuration`
(`= 2.357`); the claimed bound `delay + duration ≤ totalDuration`
(`= 2.335`) does not hold because the jitter is uniform in
`[0, stretch * duration)` rather than `[0, stretch)`. -/
theorem face_timing_bounds (w h : ℚ) (gx gy i : ℕ) (ph : Phase) (uDur : ℚ)
    (u : Fin 3 → ℚ) (v : Fin 3)
    (hw : 0 < w) (hh : 0 < h) (hgx : 0 < gx) (hgy : 0 < gy)
    (hi : i < 2 * gx * gy) (hd0 : 0 ≤ uDur) (hd1 : uDur < 1)
    (hj0 : 0 ≤ u v) (hj1 : u v < 1) :
    0 ≤ faceVertexDelay w h ph (centroidOf (faceVerts w h gx gy i)) uDur u v ∧
    0 < faceVertexDuration uDur v ∧
    faceVertexDelay w h ph (centroidOf (faceVerts w h gx gy i)) uDur u v +
        faceVertexDuration uDur v <
      maxDelayX + maxDelayY + (1 + stretch) * maxDuration := by
  obtain ⟨hcx, hcy⟩ := faceCentroid_mem w h gx gy i hw hh hgx hgy hi
  obtain ⟨hdx0, hdx1⟩ := faceDelayX_mem w _ hw hcx.1 hcx.2
  obtain ⟨hdy0, hdy1⟩ := faceDelayY_mem ph h _ hh hcy.1 hcy.2
  obtain ⟨hdur0, hdur1⟩ := faceDuration_mem uDur hd0 hd1
  have hdurpos : 0 < faceDuration uDur :=
    lt_of_lt_of_le (by norm_num [minDuration]) hdur0
  have hst : (0 : ℚ) < stretch := by norm_num [stretch]
  have hjit0 : 0 ≤ u v * stretch * faceDuration uDur :=
    mul_nonneg (mul_nonneg hj0 hst.le) hdurpos.le
  have hjit1 : u v * stretch * faceDuration uDur < stretch * faceDuration uDur := by
    have hsd : (0 : ℚ) < stretch * faceDuration uDur := mul_pos hst hdurpos
    calc u v * stretch * faceDuration uDur
        = u v * (stretch * faceDuration uDur) := by ring
      _ < 1 * (stretch * faceDuration uDur) := by
          exact mul_lt_mul_of_pos_right hj1 hsd
      _ = stretch * faceDuration uDur := one_mul _
  refine ⟨?_, ?_, ?_⟩
  · unfold faceVertexDelay
    linarith
  · unfold faceVertexDuration
    exact hdurpos
  · unfold faceVertexDelay faceVertexDuration
    have hmix : stretch * faceDuration uDur + faceDuration uDur <
        (1 + stretch) * maxDuration := by
      nlinarith
    linarith

/-- Witness for claim C2 (amended) on the smallest plane. -/
theorem face_timing_bounds_witness :
    0 ≤ faceVertexDelay 2 2 Phase.inP (centroidOf (faceVerts 2 2 1 1 0)) 0
        (fun _ => 0) 0 ∧
    0 < faceVertexDuration 0 0 ∧
    faceVertexDelay 2 2 Phase.inP (centroidOf (faceVerts 2 2 1 1 0)) 0
          (fun _ => 0) 0 +
        faceVertexDuration 0 0 <
      maxDelayX + maxDelayY + (1 + stretch) * maxDuration :=
  face_timing_bounds 2 2 1 1 0 Phase.inP 0 (fun _ => 0) 0 (by norm_num)
    (by norm_num) (by norm_num) (by norm_num) (by norm_num) le_rfl
    (by norm_num) le_rfl (by norm_num)

/-- The centroid of face 399 of the plane built for a 100×60 image
(`gx = 200`, `gy = 120` segments): the second triangle of the top-right
grid cell. -/
def jitterFaceCentroid : V3 := centroidOf (faceVerts 100 60 200 120 399)

/-- Claim C2, counterexample: at face 399 of the 100×60 plane, with both
random draws equal to `0.999` (a legal `Math.random()` outcome), the
vertex's `delay + duration` exceeds `totalDuration = 2.335`: the value is
`2.3535351\ldots`. -/
theorem face_timing_exceeds_totalDuration :
    (0 : ℚ) ≤ 999 / 1000 ∧ (999 : ℚ) / 1000 < 1 ∧
    totalDuration <
      faceVertexDelay 100 60 Phase.inP jitterFaceCentroid (999 / 1000)
          (fun _ => 999 / 1000) 0 +
        faceVertexDuration (999 / 1000) 0 := by
  refine ⟨by norm_num, by norm_num, ?_⟩
  norm_num [jitterFaceCentroid, faceVerts, planeVx, planeVy, centroidOf,
    faceVertexDelay, faceVertexDuration, faceDelayX, faceDelayY,
    faceDuration, mapLinear, randFloat, totalDuration, minDuration,
    maxDuration, maxDelayX, maxDelayY, stretch, abs_of_nonneg]

/-- The centroid of face 0 of the 100×60 plane. -/
def sharedFaceCentroid : V3 := centroidOf (faceVerts 100 60 200 120 0)

/-- Jitter draws consumed by the three vertices of one face. -/
def cexJitters : Fin 3 → ℚ := fun v => if v = 1 then 1 / 2 else 0

/-- Claim C5, counterexample: with jitter draws `0` and `1/2` for the
first two vertices of face 0 (the draw happens inside the per-vertex
loop), the two vertices of the same face get different delays — the three
vertices do not carry identical `(delay, duration)` attributes. -/
theorem vertex_delays_differ :
    faceVertexDelay 100 60 Phase.inP sharedFaceCentroid 0 cexJitters 0 ≠
    faceVertexDelay 100 60 Phase.inP sharedFaceCentroid 0 cexJitters 1 := by
  simp only [faceVertexDelay, ne_eq, add_right_inj]
  norm_num [cexJitters, faceDuration, randFloat, stretch, minDuration,
    maxDuration]

/-- Claim C5 (amended): the stretch jitter is drawn once per *vertex*
(three independent draws per face).  All three vertices of a face share
the same duration, but two of its vertices have equal delay exactly when
their jitter draws coincide. -/
theorem vertex_jitter_drawn_per_vertex (w h : ℚ) (ph : Phase) (c : V3)
    (uDur : ℚ) (u : Fin 3 → ℚ) (hdur : 0 ≤ uDur) (v v2 : Fin 3) :
    faceVertexDuration uDur v = faceVertexDuration uDur v2 ∧
    (faceVertexDelay w h ph c uDur u v = faceVertexDelay w h ph c uDur u v2 ↔
      u v = u v2) := by
  refine ⟨rfl, ?_⟩
  have hk : stretch * faceDuration uDur ≠ 0 := by
    have hp : (0 : ℚ) < stretch * faceDuration uDur := by
      have : (0 : ℚ) < faceDuration uDur := by
        unfold faceDuration randFloat minDuration maxDuration
        nlinarith
      have hst : (0 : ℚ) < stretch := by norm_num [stretch]
      exact mul_pos hst this
    exact hp.ne'
  unfold faceVertexDelay
  rw [mul_assoc, mul_assoc, add_right_inj, mul_left_inj' hk]

/-- Witness for claim C5 (amended) at face 0 with the jitter draws of the
counterexample. -/
theorem vertex_jitter_drawn_per_vertex_witness :
    faceVertexDuration 0 0 = faceVertexDuration 0 1 ∧
    (faceVertexDelay 100 60 Phase.inP sharedFaceCentroid 0 cexJitters 0 =
        faceVertexDelay 100 60 Phase.inP sharedFaceCentroid 0 cexJitters 1 ↔
      cexJitters 0 = cexJitters 1) :=
  vertex_jitter_drawn_per_vertex 100 60 Phase.inP sharedFaceCentroid 0
    cexJitters le_rfl 0 1

/-- Claim C9 (amended): provided no transition is in flight, at least two
images exist and the texture of index 0 is cached or loadable, `reset()`
at index `k ≠ 0` rewrites the logical index to the last index and the
inner `next()` performs exactly one forward wraparound transition, ending
at index 0 with the in-flight flag clear and no error; `reset()` at index
0 changes nothing.  (Invoked mid-transition it instead jumps the index
with no transition — see the counterexample.) -/
theorem reset_idle_single_transition (loadOk : Bool) (s : GState)
    (hN : 2 ≤ s.numImages) (hT : s.isTransitioning = false)
    (htex : s.textures.getD 0 false = true ∨ loadOk = true) :
    (s.currentIndex = 0 → resetRun loadOk s = (s, [], none)) ∧
    (s.currentIndex ≠ 0 →
      (resetRun loadOk s).2.1.filter GEvent.isStart =
        [GEvent.transitionStarted 0] ∧
      (resetRun loadOk s).1.currentIndex = 0 ∧
      (resetRun loadOk s).1.isTransitioning = false ∧
      (resetRun loadOk s).2.2 = none) := by
  constructor
  · intro h0
    simp [resetRun, h0]
  · intro hne
    have h1 : 1 ≤ s.numImages := le_trans one_le_two hN
    have htgt : (s.numImages - 1 + 1) % s.numImages = 0 := by
      rw [Nat.sub_add_cancel h1, Nat.mod_self]
    by_cases hc : s.textures.getD 0 false = true
    · simp only [resetRun, if_pos hne, nextRun, transitionToRun, hT,
        Nat.not_lt.mpr hN, htgt, hc]
      cases hs : s.currentSlide <;>
        simp [GEvent.isStart, List.filter, hs]
    · have hok : loadOk = true := by
        rcases htex with htex | htex
        · exact absurd htex hc
        · exact htex
      simp only [resetRun, if_pos hne, nextRun, transitionToRun, hT,
        Nat.not_lt.mpr hN, htgt, hc, hok]
      cases hs : s.currentSlide <;>
        simp [GEvent.isStart, List.filter, hs]

/-- An idle three-image gallery at index 2, all textures cached. -/
def idleAtTwo : GState :=
  { currentIndex := 2
    numImages := 3
    textures := [true, true, true]
    currentSlide := some { phase := Phase.inP, time := 0 }
    nextSlide := none
    isTransitioning := false }

/-- Witness for claim C9 (amended) at `idleAtTwo`. -/
theorem reset_idle_single_transition_witness :
    (resetRun true idleAtTwo).2.1.filter GEvent.isStart =
      [GEvent.transitionStarted 0] ∧
    (resetRun true idleAtTwo).1.currentIndex = 0 ∧
    (resetRun true idleAtTwo).1.isTransitioning = false ∧
    (resetRun true idleAtTwo).2.2 = none :=
  (reset_idle_single_transition true idleAtTwo (by decide) rfl
    (Or.inl rfl)).2 (by decide)

end ImageTransition
